import Mathlib

/-!
# Warbler — shallow embedding of the data model and route operations

This file embeds the relational data model (`users`, `messages`, `follows`,
`likes`) and the route handlers of `app.py` from the Warbler micro-blogging
application, and proves / refutes the frozen specification claims about them.

Conventions of the embedding:

* The relational store is a record `DB`.  The `follows` and `likes` tables
  carry a `UNIQUE` constraint over their whole row (spec §6), so they are
  modelled as `Finset (Nat × Nat)`; `users` and `messages` are row lists.
* Each Flask route handler becomes a pure function
  `DB → Option Nat → args → Resp × DB`: the `Option Nat` is the session
  identity (`session[CURR_USER_KEY]`), and `g.user` is recovered by lookup,
  exactly as `add_user_to_g` does.
* `flash(...) + redirect/render` becomes the `Resp` value carrying the flash
  message; an uncaught Python exception (e.g. `ValueError` from
  `list.remove`, or `session.delete(None)`) becomes `Resp.httpError 500`,
  and `get_or_404` misses become `Resp.httpError 404`.
* `form.validate_on_submit()` is supplied as a boolean input (`forms.py`
  defines the WTForms validators; form-field validation is out of scope per
  spec §1).
* Password hashing/verification (`bcrypt`) is an opaque parameter
  `verify : String → String → Bool` / `hash : String → String`.
* SQL `ORDER BY ... LIMIT n` queries guarantee only an ordering consistent
  with the `ORDER BY` keys; they are therefore modelled relationally: a
  result list is valid iff it is `List.take n` of some permutation of the
  filtered rows that is sorted by the given key.
-/

/-- A row of the `users` table (`users(id, username UNIQUE, email UNIQUE,
password_hash, ...)`, spec §6; profile columns included). -/
structure UserRec where
  id : Nat
  username : String
  email : String
  passwordHash : String
  imageUrl : String
  headerImageUrl : String
  bio : String
  location : String
  deriving DecidableEq, Repr

/-- A row of the `messages` table (`messages(id, text, timestamp, user_id)`).
Timestamps are modelled as naturals. -/
structure Msg where
  id : Nat
  text : String
  timestamp : Nat
  userId : Nat
  deriving DecidableEq, Repr

/-- The relational store.  `follows` holds (follower_id, followed_id) pairs,
`likes` holds (user_id, message_id) pairs; both tables have a UNIQUE
constraint over the pair, hence `Finset`. -/
structure DB where
  users : List UserRec
  messages : List Msg
  follows : Finset (Nat × Nat)
  likes : Finset (Nat × Nat)
  deriving DecidableEq

/-- The observable response of a route handler: a redirect or a rendered
template, each optionally carrying a `flash` message `(text, category)`, or
an HTTP error status (404 from `get_or_404`, 500 from an uncaught
exception). -/
inductive Resp where
  | redirect (url : String) (flash : Option (String × String))
  | render (template : String) (flash : Option (String × String))
  | httpError (code : Nat)
  deriving DecidableEq, Repr

/-- `User.query.get(uid)` — primary-key lookup. -/
def findUser (db : DB) (uid : Nat) : Option UserRec :=
  db.users.find? (fun u => u.id == uid)

/-- `Message.query.get(mid)` — primary-key lookup. -/
def findMsg (db : DB) (mid : Nat) : Option Msg :=
  db.messages.find? (fun m => m.id == mid)

/-- `add_user_to_g` (app.py:41-49): resolve `g.user` from the session's
stored user id; an absent session key or a stale id yields `None`. -/
def gUser (db : DB) (auth : Option Nat) : Option UserRec :=
  auth.bind (fun uid => findUser db uid)

/-- The `flash("Access unauthorized.", "danger"); return redirect(url)`
pattern guarding every mutating route. -/
def unauthorizedResp (url : String) : Resp :=
  .redirect url (some ("Access unauthorized.", "danger"))

/-- `messages_add` (app.py:287-307): anonymous callers are rejected before
the form is consulted; a valid form appends a fresh message row owned by
`g.user`; an invalid form re-renders.  `newId`/`now` stand for the
system-assigned primary key and creation timestamp. -/
def messages_add (db : DB) (auth : Option Nat) (text : String)
    (valid : Bool) (newId now : Nat) : Resp × DB :=
  match gUser db auth with
  | none => (unauthorizedResp "/", db)
  | some u =>
    if valid then
      (.redirect ("/users/" ++ toString u.id) none,
       { db with messages := db.messages ++ [⟨newId, text, now, u.id⟩] })
    else
      (.render "messages/new.html" none, db)

/-- `messages_destroy` (app.py:318-330): after the anonymous check the
message is fetched with plain `.get` and deleted with **no ownership or
existence check**; `db.session.delete(None)` raises (→ 500).  Likes of the
deleted row are cascade-deleted (spec §3, Like lifecycle). -/
def messages_destroy (db : DB) (auth : Option Nat) (mid : Nat) : Resp × DB :=
  match gUser db auth with
  | none => (unauthorizedResp "/", db)
  | some u =>
    match findMsg db mid with
    | none => (.httpError 500, db)
    | some _ =>
      (.redirect ("/users/" ++ toString u.id) none,
       { db with
          messages := db.messages.filter (fun x => x.id ≠ mid),
          likes := db.likes.filter (fun p => p.2 ≠ mid) })

/-- `add_follow` (app.py:205-217): `get_or_404` the target, then append the
edge and commit; a duplicate (follower, followed) pair violates the UNIQUE
constraint and the uncaught `IntegrityError` is a 500.  No self-follow
check. -/
def add_follow (db : DB) (auth : Option Nat) (followId : Nat) : Resp × DB :=
  match gUser db auth with
  | none => (unauthorizedResp "/", db)
  | some u =>
    match findUser db followId with
    | none => (.httpError 404, db)
    | some _ =>
      if (u.id, followId) ∈ db.follows then
        (.httpError 500, db)
      else
        (.redirect ("/users/" ++ toString u.id ++ "/following") none,
         { db with follows := insert (u.id, followId) db.follows })

/-- `stop_following` (app.py:220-232): the target is fetched with plain
`.get`, then `g.user.following.remove(followed_user)` — Python list
`remove` raises `ValueError` when the element is absent (missing edge, or
`None` target), an uncaught 500. -/
def stop_following (db : DB) (auth : Option Nat) (followId : Nat) : Resp × DB :=
  match gUser db auth with
  | none => (unauthorizedResp "/", db)
  | some u =>
    if (u.id, followId) ∈ db.follows then
      (.redirect ("/users/" ++ toString u.id ++ "/following") none,
       { db with follows := db.follows.erase (u.id, followId) })
    else
      (.httpError 500, db)

/-- `add_like` (app.py:383-408) — the like *toggle*: `get_or_404` the
message; delete the (user, message) like row if present (flash "unliked"),
else insert one (flash "liked"). -/
def add_like (db : DB) (auth : Option Nat) (mid : Nat) : Resp × DB :=
  match gUser db auth with
  | none => (unauthorizedResp "/login", db)
  | some u =>
    match findMsg db mid with
    | none => (.httpError 404, db)
    | some _ =>
      if (u.id, mid) ∈ db.likes then
        (.redirect "/" (some ("You've unliked the message.", "warning")),
         { db with likes := db.likes.erase (u.id, mid) })
      else
        (.redirect "/" (some ("You've liked the message.", "success")),
         { db with likes := insert (u.id, mid) db.likes })

/-- `remove_like` (app.py:411-432): `get_or_404` the message; when the
caller has not liked it, flash a warning and redirect without touching the
table; otherwise delete the like row. -/
def remove_like (db : DB) (auth : Option Nat) (mid : Nat) : Resp × DB :=
  match gUser db auth with
  | none => (unauthorizedResp "/login", db)
  | some u =>
    match findMsg db mid with
    | none => (.httpError 404, db)
    | some _ =>
      if (u.id, mid) ∈ db.likes then
        (.redirect ("/users/" ++ toString u.id ++ "/likes")
           (some ("Warble unliked.", "success")),
         { db with likes := db.likes.erase (u.id, mid) })
      else
        (.redirect ("/users/" ++ toString u.id ++ "/likes")
           (some ("You haven't liked this warble yet.", "warning")), db)

/-- The profile-edit form fields (`UserEditForm`). -/
structure ProfileForm where
  username : String
  email : String
  imageUrl : String
  headerImageUrl : String
  bio : String
  location : String
  password : String
  deriving DecidableEq, Repr

/-- `profile` (app.py:235-265): anonymous callers are redirected to /login;
on a valid form the supplied password is checked against the current hash
(`check_password`, modelled by the opaque `verify`); on success the user's
row is updated in place, else an invalid-password flash. -/
def profile (db : DB) (auth : Option Nat) (form : ProfileForm)
    (valid : Bool) (verify : String → String → Bool) : Resp × DB :=
  match gUser db auth with
  | none => (unauthorizedResp "/login", db)
  | some u =>
    if valid then
      let hdr := if form.headerImageUrl = "" then
        "/static/images/warbler-hero.jpg" else form.headerImageUrl
      if verify form.password u.passwordHash then
        (.redirect ("/users/" ++ toString u.id)
           (some ("Profile updated successfully.", "success")),
         { db with users := db.users.map (fun v =>
            if v.id = u.id then
              { v with username := form.username, email := form.email,
                       imageUrl := form.imageUrl, location := form.location,
                       headerImageUrl := hdr, bio := form.bio }
            else v) })
      else
        (.render "users/edit.html"
           (some ("Invalid current password. Please try again.", "danger")), db)
    else
      (.render "users/edit.html" none, db)

/-- `delete_user` (app.py:268-281): log out, delete the user row; owned
messages, owned likes, likes of owned messages, and follow edges in both
directions are cascade-deleted (spec §3, User lifecycle). -/
def delete_user (db : DB) (auth : Option Nat) : Resp × DB :=
  match gUser db auth with
  | none => (unauthorizedResp "/", db)
  | some u =>
    (.redirect "/signup" none,
     { db with
        users := db.users.filter (fun v => v.id ≠ u.id),
        messages := db.messages.filter (fun m => m.userId ≠ u.id),
        follows := db.follows.filter (fun p => p.1 ≠ u.id ∧ p.2 ≠ u.id),
        likes := db.likes.filter (fun p => p.1 ≠ u.id ∧
          ∀ m ∈ db.messages, m.id = p.2 → m.userId ≠ u.id) })

/-- The signup form fields (`UserAddForm`). -/
structure SignupForm where
  username : String
  email : String
  password : String
  imageUrl : String
  deriving DecidableEq, Repr

/-- Whether inserting `form`'s user would hit the `username UNIQUE` or
`email UNIQUE` constraint (spec §6) — the condition under which
`db.session.commit()` raises `IntegrityError` in the signup route. -/
def signupCollision (db : DB) (form : SignupForm) : Bool :=
  db.users.any (fun u => u.username == form.username || u.email == form.email)

/-- `signup` (app.py:65-101).  Modelled from the spec: `User.signup` lives
in `models.py`, which is not part of the sources; per spec §4.2 it hashes
the password and inserts a new user row, and per §6/§7 a username or email
collision surfaces as `IntegrityError` at commit — which the route catches,
flashing the fixed message "Username already taken" and re-rendering the
form.  On success the new row is appended and the caller is logged in. -/
def signup (db : DB) (form : SignupForm) (valid : Bool)
    (hash : String → String) (newId : Nat) : Resp × DB :=
  if valid then
    if signupCollision db form then
      (.render "users/signup.html" (some ("Username already taken", "danger")), db)
    else
      (.redirect "/" (some ("Welcome to Warbler", "success")),
       { db with users := db.users ++
          [⟨newId, form.username, form.email, hash form.password,
            form.imageUrl, "", "", ""⟩] })
  else
    (.render "users/signup.html" none, db)

/-- `User.authenticate` — modelled from the spec: it lives in `models.py`,
which is not part of the sources; per spec §4.2 it "looks up by username;
if found, verifies password against stored hash; returns the User only on
match", and the model tests assert a falsy result both for an unknown
username and for a wrong password. -/
def authenticate (db : DB) (username password : String)
    (verify : String → String → Bool) : Option UserRec :=
  match db.users.find? (fun u => u.username == username) with
  | none => none
  | some u => if verify password u.passwordHash then some u else none

/-- `login` (app.py:104-121): on a valid form, authenticate; a match logs
in and redirects home, any failure flashes the one fixed message
"Invalid credentials." and re-renders the login form. -/
def login (db : DB) (username password : String)
    (verify : String → String → Bool) (valid : Bool) : Resp × DB :=
  if valid then
    match authenticate db username password verify with
    | some u =>
      (.redirect "/" (some ("Hello, " ++ u.username ++ "!", "success")), db)
    | none =>
      (.render "users/login.html" (some ("Invalid credentials.", "danger")), db)
  else
    (.render "users/login.html" none, db)

/-! ## Timeline queries

`ORDER BY messages.timestamp DESC LIMIT 100` pins down only an ordering
consistent with the sort key; equal-timestamp rows may come back in any
order (there is no secondary key in the query).  A result list is
therefore *valid* iff it is the 100-prefix of some timestamp-descending
permutation of the filtered rows. -/

/-- Timestamp-descending comparison between adjacent messages. -/
def tsDesc (a b : Msg) : Prop := b.timestamp ≤ a.timestamp

/-- The rows selected by the homepage query (app.py:344-351): messages
whose author is in `[user.id for user in g.user.following]`. -/
def homeFiltered (db : DB) (viewer : Nat) : List Msg :=
  db.messages.filter (fun m => decide ((viewer, m.userId) ∈ db.follows))

/-- The rows selected by the profile-page query (app.py:172-177): messages
authored by the shown user. -/
def userFiltered (db : DB) (uid : Nat) : List Msg :=
  db.messages.filter (fun m => m.userId == uid)

/-- What `ORDER BY timestamp DESC LIMIT 100` guarantees about a result:
it is the 100-prefix of some timestamp-descending permutation of the
selected rows. -/
def sqlOrdered (rows out : List Msg) : Prop :=
  ∃ p : List Msg, p.Perm rows ∧ p.Pairwise tsDesc ∧ out = p.take 100

/-- `homepage` (app.py:337-359): a logged-in viewer gets a valid result of
the followed-authors query; an anonymous viewer gets the no-message
`home-anon.html` page, i.e. the empty sequence. -/
def homeTimeline (db : DB) (auth : Option Nat) (out : List Msg) : Prop :=
  match gUser db auth with
  | some u => sqlOrdered (homeFiltered db u.id) out
  | none => out = []

/-- `users_show` (app.py:164-178) message query: a valid result of the
single-author query, regardless of viewer identity. -/
def userTimeline (db : DB) (uid : Nat) (out : List Msg) : Prop :=
  sqlOrdered (userFiltered db uid) out

/-! ## Concrete fixtures used by witnesses and counterexamples -/

/-- Fixture user 1 ("alice"). -/
def aliceU : UserRec := ⟨1, "alice", "alice@x.io", "hash-alice", "", "", "", ""⟩

/-- Fixture user 2 ("bob"). -/
def bobU : UserRec := ⟨2, "bob", "bob@x.io", "hash-bob", "", "", "", ""⟩

/-- Fixture message 10, owned by user 1. -/
def msg10 : Msg := ⟨10, "hello", 5, 1⟩

/-- Fixture message 20, owned by user 2. -/
def msg20 : Msg := ⟨20, "warble", 7, 2⟩

/-- Two equal-timestamp messages by user 2, ids 1 < 2. -/
def msgT1 : Msg := ⟨1, "first", 5, 2⟩

/-- Second of the two equal-timestamp messages. -/
def msgT2 : Msg := ⟨2, "second", 5, 2⟩

/-- Helper: a `findUser` hit satisfies the lookup predicate, so the found
row carries the looked-up id. -/
theorem findUser_id (db : DB) (uid : Nat) (u : UserRec)
    (h : findUser db uid = some u) : u.id = uid := by
  have := List.find?_some h
  exact eq_of_beq this

/-! ## C1, C3, C7, C8 — authorization and follow-graph claims -/

/-- **C3** (confirmed): every mutating operation — posting a message,
deleting a message, follow, unfollow, like (toggle and remove), profile
edit, account delete — invoked by an anonymous caller fails with the
"Access unauthorized." danger flash (the code's Unauthorized outcome, as
asserted by the view tests) and returns the store unchanged; in
particular an anonymous message post creates no message row. -/
theorem anonymous_mutations_rejected (db : DB) (text : String) (valid : Bool)
    (newId now mid fid : Nat) (pform : ProfileForm)
    (verify : String → String → Bool) :
    messages_add db none text valid newId now = (unauthorizedResp "/", db) ∧
    messages_destroy db none mid = (unauthorizedResp "/", db) ∧
    add_follow db none fid = (unauthorizedResp "/", db) ∧
    stop_following db none fid = (unauthorizedResp "/", db) ∧
    add_like db none mid = (unauthorizedResp "/login", db) ∧
    remove_like db none mid = (unauthorizedResp "/login", db) ∧
    profile db none pform valid verify = (unauthorizedResp "/login", db) ∧
    delete_user db none = (unauthorizedResp "/", db) :=
  ⟨rfl, rfl, rfl, rfl, rfl, rfl, rfl, rfl⟩

/-- Store for the C1 evidence: alice owns message 10, bob is logged in. -/
def dbOwn : DB := ⟨[aliceU, bobU], [msg10], ∅, ∅⟩

/-- **C1** (code_bug evidence): message 10 exists and is owned by user 1,
yet the delete request by logged-in user 2 — not the owner — deletes the
row and redirects as success instead of failing with Unauthorized; the
message table does not stay unchanged.  `messages_destroy` performs no
ownership check (app.py:318-330). -/
theorem nonowner_delete_succeeds :
    msg10.userId = 1 ∧ (2 : Nat) ≠ 1 ∧ findMsg dbOwn 10 = some msg10 ∧
    messages_destroy dbOwn (some 2) 10 =
      (.redirect "/users/2" none, { dbOwn with messages := [] }) := by
  refine ⟨rfl, by decide, rfl, ?_⟩
  decide

/-- Store for the C7 evidence: two users, no follow edges. -/
def dbNoEdge : DB := ⟨[aliceU, bobU], [], ∅, ∅⟩

/-- **C7** (code_bug evidence): user 1 is logged in and does not follow
user 2; the unfollow request raises (Python `list.remove` on an absent
element → uncaught `ValueError`, HTTP 500) instead of completing as a
no-op: `stop_following` (app.py:220-232) never checks the edge. -/
theorem unfollow_missing_edge_errors :
    (1, 2) ∉ dbNoEdge.follows ∧
    stop_following dbNoEdge (some 1) 2 = (.httpError 500, dbNoEdge) := by
  refine ⟨by decide, ?_⟩
  decide

/-- Store for the C8 counterexample: one user, no follow edges. -/
def dbSelf : DB := ⟨[aliceU], [], ∅, ∅⟩

/-- **C8** (counterexample): the follow operation does not reject
self-follow — logged-in user 1 following their own id succeeds and the
self-edge (1,1) is in the follow graph afterwards, so the claimed
invariant "no follow edge (u,u) ever exists" fails after one
operation. -/
theorem self_follow_accepted :
    add_follow dbSelf (some 1) 1 =
      (.redirect "/users/1/following" none,
       { dbSelf with follows := {(1, 1)} }) ∧
    (1, 1) ∈ (add_follow dbSelf (some 1) 1).2.follows := by
  refine ⟨by decide, by decide⟩

/-- **C8** (amended): the follow operation accepts self-follow — for every
logged-in user whose self-edge is not yet present, following their own id
inserts the self-edge (u,u) into the follow graph. -/
theorem self_follow_inserts_edge (db : DB) (uid : Nat) (u : UserRec)
    (hu : findUser db uid = some u) (hself : (uid, uid) ∉ db.follows) :
    add_follow db (some uid) uid =
      (.redirect ("/users/" ++ toString uid ++ "/following") none,
       { db with follows := insert (uid, uid) db.follows }) := by
  have hid : u.id = uid := findUser_id db uid u hu
  unfold add_follow gUser
  simp only [Option.some_bind, hu, hid, if_neg hself]

/-- Witness for `self_follow_inserts_edge` at the concrete store
`dbSelf`. -/
theorem self_follow_inserts_edge_witness :
    (findUser dbSelf 1 = some aliceU ∧ (1, 1) ∉ dbSelf.follows) ∧
    add_follow dbSelf (some 1) 1 =
      (.redirect ("/users/" ++ toString 1 ++ "/following") none,
       { dbSelf with follows := insert (1, 1) dbSelf.follows }) :=
  ⟨⟨rfl, by decide⟩, self_follow_inserts_edge dbSelf 1 aliceU rfl (by decide)⟩

/-! ## C4, C10 — the like relation -/

/-- **C4** (confirmed): for a logged-in user and an existing message,
`add_like` (the toggle) deletes the (user, message) like row and flashes
the "unliked" report when the row exists, otherwise inserts one and
flashes the "liked" report; and applying the toggle twice returns the
whole store — in particular the like relation — to its original state. -/
theorem add_like_toggle_involution (db : DB) (uid mid : Nat)
    (u : UserRec) (m : Msg)
    (hu : findUser db uid = some u) (hm : findMsg db mid = some m) :
    ((uid, mid) ∈ db.likes →
       add_like db (some uid) mid =
         (.redirect "/" (some ("You've unliked the message.", "warning")),
          { db with likes := db.likes.erase (uid, mid) })) ∧
    ((uid, mid) ∉ db.likes →
       add_like db (some uid) mid =
         (.redirect "/" (some ("You've liked the message.", "success")),
          { db with likes := insert (uid, mid) db.likes })) ∧
    (add_like (add_like db (some uid) mid).2 (some uid) mid).2 = db := by
  have hid : u.id = uid := findUser_id db uid u hu
  have step : ∀ s : DB, s.users = db.users → s.messages = db.messages →
      add_like s (some uid) mid =
        (if (uid, mid) ∈ s.likes then
          (.redirect "/" (some ("You've unliked the message.", "warning")),
           { s with likes := s.likes.erase (uid, mid) })
        else
          (.redirect "/" (some ("You've liked the message.", "success")),
           { s with likes := insert (uid, mid) s.likes })) := by
    intro s hsu hsm
    have hu' : findUser s uid = some u := by rw [findUser, hsu]; exact hu
    have hm' : findMsg s mid = some m := by rw [findMsg, hsm]; exact hm
    unfold add_like gUser
    simp only [Option.some_bind, hu', hid, hm']
  refine ⟨?_, ?_, ?_⟩
  · intro h
    rw [step db rfl rfl, if_pos h]
  · intro h
    rw [step db rfl rfl, if_neg h]
  · by_cases h : (uid, mid) ∈ db.likes
    · rw [step db rfl rfl, if_pos h]
      rw [step { db with likes := db.likes.erase (uid, mid) } rfl rfl,
          if_neg (Finset.not_mem_erase _ _)]
      show { db with likes := insert (uid, mid) (db.likes.erase (uid, mid)) } = db
      rw [Finset.insert_erase h]
    · rw [step db rfl rfl, if_neg h]
      rw [step { db with likes := insert (uid, mid) db.likes } rfl rfl,
          if_pos (Finset.mem_insert_self _ _)]
      show { db with likes := (insert (uid, mid) db.likes).erase (uid, mid) } = db
      rw [Finset.erase_insert h]

/-- Store for the like witnesses: alice logged in, bob's message 20, no
likes yet. -/
def dbLike : DB := ⟨[aliceU, bobU], [msg20], ∅, ∅⟩

/-- Witness for `add_like_toggle_involution` at the concrete store
`dbLike` (alice toggles a like on message 20). -/
theorem add_like_toggle_involution_witness :
    (findUser dbLike 1 = some aliceU ∧ findMsg dbLike 20 = some msg20) ∧
    (((1, 20) ∈ dbLike.likes →
       add_like dbLike (some 1) 20 =
         (.redirect "/" (some ("You've unliked the message.", "warning")),
          { dbLike with likes := dbLike.likes.erase (1, 20) })) ∧
    ((1, 20) ∉ dbLike.likes →
       add_like dbLike (some 1) 20 =
         (.redirect "/" (some ("You've liked the message.", "success")),
          { dbLike with likes := insert (1, 20) dbLike.likes })) ∧
    (add_like (add_like dbLike (some 1) 20).2 (some 1) 20).2 = dbLike) :=
  ⟨⟨rfl, rfl⟩, add_like_toggle_involution dbLike 1 20 aliceU msg20 rfl rfl⟩

/-- **C10** (confirmed): for a logged-in user and an existing message the
user has not liked, the dedicated `remove_like` leaves the store — in
particular the likes relation — unchanged and reports only the warning
flash (no error); when the user has liked the message it deletes exactly
the (user, message) like row: afterwards a pair is a like iff it was one
before and is not that pair. -/
theorem remove_like_spec (db : DB) (uid mid : Nat) (u : UserRec) (m : Msg)
    (hu : findUser db uid = some u) (hm : findMsg db mid = some m) :
    ((uid, mid) ∉ db.likes →
       remove_like db (some uid) mid =
         (.redirect ("/users/" ++ toString uid ++ "/likes")
            (some ("You haven't liked this warble yet.", "warning")), db)) ∧
    ((uid, mid) ∈ db.likes →
       remove_like db (some uid) mid =
         (.redirect ("/users/" ++ toString uid ++ "/likes")
            (some ("Warble unliked.", "success")),
          { db with likes := db.likes.erase (uid, mid) }) ∧
       ∀ p : Nat × Nat,
         p ∈ (remove_like db (some uid) mid).2.likes ↔
           (p ∈ db.likes ∧ p ≠ (uid, mid))) := by
  have hid : u.id = uid := findUser_id db uid u hu
  have step : remove_like db (some uid) mid =
      (if (uid, mid) ∈ db.likes then
        (.redirect ("/users/" ++ toString uid ++ "/likes")
           (some ("Warble unliked.", "success")),
         { db with likes := db.likes.erase (uid, mid) })
      else
        (.redirect ("/users/" ++ toString uid ++ "/likes")
           (some ("You haven't liked this warble yet.", "warning")), db)) := by
    unfold remove_like gUser
    simp only [Option.some_bind, hu, hid, hm]
  refine ⟨?_, ?_⟩
  · intro h
    rw [step, if_neg h]
  · intro h
    refine ⟨by rw [step, if_pos h], ?_⟩
    intro p
    rw [step, if_pos h]
    show p ∈ db.likes.erase (uid, mid) ↔ _
    rw [Finset.mem_erase]
    exact ⟨fun ⟨hne, hmem⟩ => ⟨hmem, hne⟩, fun ⟨hmem, hne⟩ => ⟨hne, hmem⟩⟩

/-- Store for the C10 witness: alice has liked bob's message 20. -/
def dbLiked : DB := ⟨[aliceU, bobU], [msg20], ∅, {(1, 20)}⟩

/-- Witness for `remove_like_spec` at the concrete stores `dbLike`
(not liked: no-op with warning) and `dbLiked` (liked: exactly that row
removed). -/
theorem remove_like_spec_witness :
    (findUser dbLike 1 = some aliceU ∧ findMsg dbLike 20 = some msg20 ∧
     (1, 20) ∉ dbLike.likes ∧
     remove_like dbLike (some 1) 20 =
       (.redirect ("/users/" ++ toString 1 ++ "/likes")
          (some ("You haven't liked this warble yet.", "warning")), dbLike)) ∧
    (findUser dbLiked 1 = some aliceU ∧ findMsg dbLiked 20 = some msg20 ∧
     (1, 20) ∈ dbLiked.likes ∧
     remove_like dbLiked (some 1) 20 =
       (.redirect ("/users/" ++ toString 1 ++ "/likes")
          (some ("Warble unliked.", "success")),
        { dbLiked with likes := dbLiked.likes.erase (1, 20) })) :=
  ⟨⟨rfl, rfl, by decide,
    (remove_like_spec dbLike 1 20 aliceU msg20 rfl rfl).1 (by decide)⟩,
   ⟨rfl, rfl, by decide,
    ((remove_like_spec dbLiked 1 20 aliceU msg20 rfl rfl).2 (by decide)).1⟩⟩

/-! ## C5, C6 — authentication and signup -/

/-- **C5** (confirmed): `authenticate` with an unknown username and
`authenticate` with a known username but wrong password both return the
same "no match" result (`none`), and the surrounding `login` route
produces the identical "Invalid credentials." response for both, so the
two failure causes are externally indistinguishable. -/
theorem authenticate_failures_indistinguishable (db : DB)
    (verify : String → String → Bool) (un1 pw1 un2 pw2 : String)
    (u : UserRec)
    (h1 : db.users.find? (fun v => v.username == un1) = none)
    (h2 : db.users.find? (fun v => v.username == un2) = some u)
    (h3 : verify pw2 u.passwordHash = false) :
    authenticate db un1 pw1 verify = none ∧
    authenticate db un2 pw2 verify = none ∧
    login db un1 pw1 verify true = login db un2 pw2 verify true ∧
    (login db un1 pw1 verify true).1 =
      .render "users/login.html" (some ("Invalid credentials.", "danger")) := by
  have a1 : authenticate db un1 pw1 verify = none := by
    unfold authenticate
    rw [h1]
  have a2 : authenticate db un2 pw2 verify = none := by
    unfold authenticate
    simp only [h2, h3, if_false, Bool.false_eq_true]
  refine ⟨a1, a2, ?_, ?_⟩
  · unfold login
    rw [a1, a2]
  · unfold login
    rw [a1]
    rfl

/-- Store for the C5 witness: only alice exists; her stored hash is
modelled verified by literal equality. -/
def dbAuth : DB := ⟨[aliceU], [], ∅, ∅⟩

/-- Witness for `authenticate_failures_indistinguishable`: an unknown
username ("nobody") and alice's username with a wrong password. -/
theorem authenticate_failures_witness :
    (dbAuth.users.find? (fun v => v.username == "nobody") = none ∧
     dbAuth.users.find? (fun v => v.username == "alice") = some aliceU ∧
     (fun p h => p == h) "wrong" aliceU.passwordHash = false) ∧
    (authenticate dbAuth "nobody" "pw" (fun p h => p == h) = none ∧
     authenticate dbAuth "alice" "wrong" (fun p h => p == h) = none ∧
     login dbAuth "nobody" "pw" (fun p h => p == h) true =
       login dbAuth "alice" "wrong" (fun p h => p == h) true ∧
     (login dbAuth "nobody" "pw" (fun p h => p == h) true).1 =
       .render "users/login.html" (some ("Invalid credentials.", "danger"))) :=
  ⟨⟨by decide, by decide, by decide⟩,
   authenticate_failures_indistinguishable dbAuth (fun p h => p == h)
     "nobody" "pw" "alice" "wrong" aliceU (by decide) (by decide) (by decide)⟩

/-- Store for the C6 counterexample: only alice exists. -/
def dbSign : DB := ⟨[aliceU], [], ∅, ∅⟩

/-- A signup form whose username is fresh but whose email collides with
alice's. -/
def emailCollideForm : SignupForm := ⟨"bob", "alice@x.io", "pw", ""⟩

/-- **C6** (counterexample): a signup colliding only on *email* (the
username "bob" is taken by no stored user) still flashes the fixed
message "Username already taken" — the error does not identify the
colliding field for the caller, refuting the claim as stated.  (The
no-partial-write half does hold: the store is returned unchanged.) -/
theorem signup_email_collision_misreported :
    (∀ v ∈ dbSign.users, v.username ≠ emailCollideForm.username) ∧
    (∃ v ∈ dbSign.users, v.email = emailCollideForm.email) ∧
    signup dbSign emailCollideForm true (fun s => s) 7 =
      (.render "users/signup.html"
         (some ("Username already taken", "danger")), dbSign) := by
  refine ⟨by decide, ⟨aliceU, by decide, rfl⟩, by decide⟩

/-- **C6** (amended): signup with a username or email already in use hits
the store's UNIQUE constraint, and the route translates the resulting
`IntegrityError` into the fixed duplicate-credential flash
"Username already taken" — a user-visible message, not a raw database
error — re-presenting the form with no partial write (the store is
unchanged); but the message is the same for both collision kinds and so
does not identify the colliding field. -/
theorem signup_collision_no_partial_write (db : DB) (form : SignupForm)
    (hash : String → String) (newId : Nat)
    (h : signupCollision db form = true) :
    signup db form true hash newId =
      (.render "users/signup.html"
         (some ("Username already taken", "danger")), db) := by
  unfold signup
  simp only [h, if_true, if_pos]

/-- Witness for `signup_collision_no_partial_write` at the concrete
email-colliding form. -/
theorem signup_collision_no_partial_write_witness :
    signupCollision dbSign emailCollideForm = true ∧
    signup dbSign emailCollideForm true (fun s => s) 7 =
      (.render "users/signup.html"
         (some ("Username already taken", "danger")), dbSign) :=
  ⟨by decide,
   signup_collision_no_partial_write dbSign emailCollideForm
     (fun s => s) 7 (by decide)⟩

/-! ## C2, C9 — timeline queries -/

instance : DecidableRel tsDesc :=
  fun a b => inferInstanceAs (Decidable (b.timestamp ≤ a.timestamp))

/-- Helper: every member of a valid `ORDER BY ... LIMIT` result is a
selected row. -/
theorem sqlOrdered_mem (rows out : List Msg) (h : sqlOrdered rows out) :
    ∀ m ∈ out, m ∈ rows := by
  obtain ⟨p, hp, _, ho⟩ := h
  intro m hm
  exact hp.mem_iff.mp (List.take_subset 100 p (ho ▸ hm))

/-- Helper: a valid result is sorted by timestamp descending. -/
theorem sqlOrdered_pairwise (rows out : List Msg) (h : sqlOrdered rows out) :
    out.Pairwise tsDesc := by
  obtain ⟨p, _, hs, ho⟩ := h
  exact ho ▸ hs.sublist (List.take_sublist 100 p)

/-- Helper: a valid result respects the LIMIT. -/
theorem sqlOrdered_length (rows out : List Msg) (h : sqlOrdered rows out) :
    out.length ≤ 100 := by
  obtain ⟨p, _, _, ho⟩ := h
  rw [ho, List.length_take]
  exact min_le_left _ _

/-- Helper: when the selected rows fit within the LIMIT, any two valid
results are permutations of each other. -/
theorem sqlOrdered_perm (rows out1 out2 : List Msg)
    (h1 : sqlOrdered rows out1) (h2 : sqlOrdered rows out2)
    (hlen : rows.length ≤ 100) : out1.Perm out2 := by
  obtain ⟨p1, hp1, _, ho1⟩ := h1
  obtain ⟨p2, hp2, _, ho2⟩ := h2
  rw [ho1, ho2, List.take_of_length_le (hp1.length_eq ▸ hlen),
      List.take_of_length_le (hp2.length_eq ▸ hlen)]
  exact hp1.trans hp2.symm

/-- **C2** (confirmed): any valid home-timeline result contains only
messages whose author is followed by the (resolved) viewer, is ordered by
creation timestamp descending, and holds at most 100 messages; for an
anonymous (unresolved) viewer the result is the empty sequence. -/
theorem home_timeline_shape (db : DB) (auth : Option Nat) (out : List Msg)
    (h : homeTimeline db auth out) :
    (∀ m ∈ out, ∃ u : UserRec,
        gUser db auth = some u ∧ (u.id, m.userId) ∈ db.follows) ∧
    out.Pairwise tsDesc ∧
    out.length ≤ 100 ∧
    (gUser db auth = none → out = []) := by
  unfold homeTimeline at h
  cases hg : gUser db auth with
  | none =>
    rw [hg] at h
    subst h
    exact ⟨fun m hm => absurd hm (List.not_mem_nil m),
           List.Pairwise.nil, by simp, fun _ => rfl⟩
  | some u =>
    rw [hg] at h
    refine ⟨?_, sqlOrdered_pairwise _ _ h, sqlOrdered_length _ _ h, ?_⟩
    · intro m hm
      have hrow := sqlOrdered_mem _ _ h m hm
      have := (List.mem_filter.mp hrow).2
      exact ⟨u, rfl, of_decide_eq_true this⟩
    · intro hnone
      exact absurd hnone (by simp)

/-- Store for the timeline witnesses: alice follows bob, who authored
message 20. -/
def dbTL : DB := ⟨[aliceU, bobU], [msg20], {(1, 2)}, ∅⟩

/-- Witness for `home_timeline_shape` at the concrete store `dbTL` with
the valid result `[msg20]`. -/
theorem home_timeline_shape_witness :
    homeTimeline dbTL (some 1) [msg20] ∧
    ((∀ m ∈ ([msg20] : List Msg), ∃ u : UserRec,
        gUser dbTL (some 1) = some u ∧ (u.id, m.userId) ∈ dbTL.follows) ∧
     ([msg20] : List Msg).Pairwise tsDesc ∧
     ([msg20] : List Msg).length ≤ 100 ∧
     (gUser dbTL (some 1) = none → [msg20] = ([] : List Msg))) := by
  have hspec : homeTimeline dbTL (some 1) [msg20] := by
    show sqlOrdered (homeFiltered dbTL 1) [msg20]
    exact ⟨[msg20], by decide, by decide, rfl⟩
  exact ⟨hspec, home_timeline_shape dbTL (some 1) [msg20] hspec⟩

/-- Store for the C9 counterexample: alice follows bob, who authored the
two equal-timestamp messages with ids 1 < 2. -/
def dbTie : DB := ⟨[aliceU, bobU], [msgT1, msgT2], {(1, 2)}, ∅⟩

/-- **C9** (counterexample): over the tie store, both `[msgT1, msgT2]`
and `[msgT2, msgT1]` are valid home-timeline results — the query orders
only by timestamp, with no secondary key — so two runs over the same
state need not agree, and the valid result `[msgT1, msgT2]` lists the
equal-timestamp messages in identifier-*ascending* order, refuting the
claimed identifier-descending tie-break. -/
theorem timeline_tie_not_deterministic :
    homeTimeline dbTie (some 1) [msgT1, msgT2] ∧
    homeTimeline dbTie (some 1) [msgT2, msgT1] ∧
    msgT1.timestamp = msgT2.timestamp ∧ msgT1.id < msgT2.id ∧
    ([msgT1, msgT2] : List Msg) ≠ [msgT2, msgT1] := by
  refine ⟨?_, ?_, rfl, by decide, by decide⟩
  · show sqlOrdered (homeFiltered dbTie 1) [msgT1, msgT2]
    exact ⟨[msgT1, msgT2], by decide, by decide, rfl⟩
  · show sqlOrdered (homeFiltered dbTie 1) [msgT2, msgT1]
    exact ⟨[msgT2, msgT1], by decide, by decide, rfl⟩

/-- **C9** (amended): home- and user-timeline results are deterministic
only up to reordering of equal-timestamp messages: every valid result is
sorted by timestamp descending, and when the selected rows fit within the
limit any two valid results over the same state are permutations of each
other; the query imposes no secondary key, so no identifier-descending
tie order is guaranteed. -/
theorem timelines_deterministic_up_to_ties (db : DB) (auth : Option Nat)
    (uid : Nat) (out1 out2 out3 out4 : List Msg)
    (h1 : homeTimeline db auth out1) (h2 : homeTimeline db auth out2)
    (h3 : userTimeline db uid out3) (h4 : userTimeline db uid out4) :
    out1.Pairwise tsDesc ∧ out3.Pairwise tsDesc ∧
    (∀ u : UserRec, gUser db auth = some u →
      (homeFiltered db u.id).length ≤ 100 → out1.Perm out2) ∧
    ((userFiltered db uid).length ≤ 100 → out3.Perm out4) := by
  unfold homeTimeline at h1 h2
  cases hg : gUser db auth with
  | none =>
    rw [hg] at h1 h2
    subst h1
    subst h2
    refine ⟨List.Pairwise.nil, sqlOrdered_pairwise _ _ h3, ?_, ?_⟩
    · intro u hu
      exact absurd hu (by simp)
    · exact fun hlen => sqlOrdered_perm _ _ _ h3 h4 hlen
  | some u =>
    rw [hg] at h1 h2
    refine ⟨sqlOrdered_pairwise _ _ h1, sqlOrdered_pairwise _ _ h3, ?_, ?_⟩
    · intro v hv hlen
      cases hv
      exact sqlOrdered_perm _ _ _ h1 h2 hlen
    · exact fun hlen => sqlOrdered_perm _ _ _ h3 h4 hlen

/-- Witness for `timelines_deterministic_up_to_ties` at the tie store:
the two tied home results are permutations, as are the two tied user
results for bob's page. -/
theorem timelines_deterministic_up_to_ties_witness :
    (homeTimeline dbTie (some 1) [msgT1, msgT2] ∧
     homeTimeline dbTie (some 1) [msgT2, msgT1] ∧
     userTimeline dbTie 2 [msgT1, msgT2] ∧
     userTimeline dbTie 2 [msgT2, msgT1]) ∧
    (([msgT1, msgT2] : List Msg).Pairwise tsDesc ∧
     ([msgT1, msgT2] : List Msg).Pairwise tsDesc ∧
     (∀ u : UserRec, gUser dbTie (some 1) = some u →
       (homeFiltered dbTie u.id).length ≤ 100 →
       ([msgT1, msgT2] : List Msg).Perm [msgT2, msgT1]) ∧
     ((userFiltered dbTie 2).length ≤ 100 →
       ([msgT1, msgT2] : List Msg).Perm [msgT2, msgT1])) := by
  have e1 : homeTimeline dbTie (some 1) [msgT1, msgT2] :=
    ⟨[msgT1, msgT2], by decide, by decide, rfl⟩
  have e2 : homeTimeline dbTie (some 1) [msgT2, msgT1] :=
    ⟨[msgT2, msgT1], by decide, by decide, rfl⟩
  have e3 : userTimeline dbTie 2 [msgT1, msgT2] :=
    ⟨[msgT1, msgT2], by decide, by decide, rfl⟩
  have e4 : userTimeline dbTie 2 [msgT2, msgT1] :=
    ⟨[msgT2, msgT1], by decide, by decide, rfl⟩
  exact ⟨⟨e1, e2, e3, e4⟩,
    timelines_deterministic_up_to_ties dbTie (some 1) 2
      [msgT1, msgT2] [msgT2, msgT1] [msgT1, msgT2] [msgT2, msgT1]
      e1 e2 e3 e4⟩
